import Mathlib

/-!
MenuBot_CloudAPI: startup, checkout configuration and route table.

A shallow embedding of `main.go`: the environment loader (`getEnvVar`, the
`EnvVars` literal), the `mb.CheckoutInfo` literal, and the route
registrations on the chi router, followed by the properties of the
specification that concern them.

The process environment, the outcome of `sql.Open`, of
`template.ParseFiles`, of `db.Close` and of `http.ListenAndServe` are the
inputs of the program; they are gathered in `World`.  What the program does
is recorded as a trace of `Event`s together with the values it builds.
-/

namespace MenuBot

/-! ## The process environment -/

/-- The process environment: the `NAME=value` pairs the process starts with. -/
abbrev Env := List (String × String)

/-- Go's `os.Getenv`: the value of the variable, empty when it is not present. -/
def Getenv (env : Env) (key : String) : String :=
  match env.lookup key with
  | some value => value
  | none => ""

/-! ## The const block (main.go, lines 30-42) -/

def appName : String := "WhatsAppBot_CloudAPI"
def webhookURL : String := "/webhook"
def staleMsgTimeOut : Int := 10
def pymntRtrnBase : String := "payment_return"
def pymntCnclBase : String := "payment_canceled"
def returnBaseURL : String := "/" ++ pymntRtrnBase
def cancelBaseURL : String := "/" ++ pymntCnclBase
def notifyBaseURL : String := "/payment_notify"
def ItemNamePrefix : String := "Order"

/-! ## Environment loading (main.go, lines 44-83) -/

structure EnvVars where
  Pwd : String
  Port : String
  VerifyToken : String
  WhatsAppToken : String
  DBConn : String
  HostNumber : String
  PhoneID : String
  HomebaseURL : String
  MerchantId : String
  MerchantKey : String
  Passphrase : String
  PfHost : String
  deriving DecidableEq, Repr

/-- The function `getEnvVar`: `log.Fatalf` ends the process, which is the
`error` case carrying the formatted message. -/
def getEnvVar (env : Env) (name : String) : Except String String :=
  let value := Getenv env name
  if value = "" then
    .error (name ++ " environment variable does not exist")
  else
    .ok value

/-- The `EnvVars` literal of `main`: its twelve `getEnvVar` calls are
evaluated in the order they are written, and the first fatal one ends the
process. -/
def loadEnvVars (env : Env) : Except String EnvVars := do
  let pwd ← getEnvVar env "PWD"
  let port ← getEnvVar env "PORT"
  let verifyToken ← getEnvVar env "VERIFY_TOKEN"
  let whatsAppToken ← getEnvVar env "WHATSAPP_TOKEN"
  let dbConn ← getEnvVar env "DATABASE_URL"
  let hostNumber ← getEnvVar env "HOST_NUMBER"
  let phoneID ← getEnvVar env "PHONE_ID"
  let homebaseURL ← getEnvVar env "HOMEBASEURL"
  let merchantId ← getEnvVar env "MERCHANTID"
  let merchantKey ← getEnvVar env "MERCHANTKEY"
  let passphrase ← getEnvVar env "PASSPHRASE"
  let pfHost ← getEnvVar env "PFHOST"
  pure {
    Pwd := pwd
    Port := port
    VerifyToken := verifyToken
    WhatsAppToken := whatsAppToken
    DBConn := dbConn
    HostNumber := hostNumber
    PhoneID := phoneID
    HomebaseURL := homebaseURL
    MerchantId := merchantId
    MerchantKey := merchantKey
    Passphrase := passphrase
    PfHost := pfHost }

/-- The names read by the `EnvVars` literal, in the order of the calls. -/
def envVarNames : List String :=
  ["PWD", "PORT", "VERIFY_TOKEN", "WHATSAPP_TOKEN", "DATABASE_URL", "HOST_NUMBER",
   "PHONE_ID", "HOMEBASEURL", "MERCHANTID", "MERCHANTKEY", "PASSPHRASE", "PFHOST"]

/-! ## Values handed to the handlers -/

/-- The fields of `mb.CheckoutInfo` that `main` sets. -/
structure CheckoutInfo where
  ReturnURL : String
  CancelURL : String
  NotifyURL : String
  MerchantId : String
  MerchantKey : String
  Passphrase : String
  HostURL : String
  ItemNamePrefix : String
  deriving DecidableEq, Repr

/-- The `checkoutInfo` literal of `main` (lines 114-123). -/
def mkCheckoutInfo (envVars : EnvVars) : CheckoutInfo where
  ReturnURL := envVars.HomebaseURL ++ returnBaseURL
  CancelURL := envVars.HomebaseURL ++ cancelBaseURL
  NotifyURL := envVars.HomebaseURL ++ notifyBaseURL
  MerchantId := envVars.MerchantId
  MerchantKey := envVars.MerchantKey
  Passphrase := envVars.Passphrase
  HostURL := envVars.PfHost
  ItemNamePrefix := ItemNamePrefix

/-- The channel client returned by `wa.NewWhatsapp(token, phoneID)`. -/
structure Whatsapp where
  Token : String
  PhoneNumberID : String
  deriving DecidableEq, Repr

/-- The database handle returned by `sql.Open(driverName, dataSourceName)`. -/
structure DB where
  driverName : String
  dataSourceName : String
  deriving DecidableEq, Repr

/-- A parsed template, identified by the arguments of the `filepath.Join`
call that names its file. -/
structure Template where
  file : List String
  deriving DecidableEq, Repr

/-- The path `filepath.Join(pwd, "templates", base+".html")`, kept as the
list of the joined elements. -/
def templatePath (pwd base : String) : List String :=
  [pwd, "templates", base ++ ".html"]

/-- The five handler constructors `main` calls, each with the arguments of
its call; the values a handler holds are the ones it was constructed from. -/
inductive Handler where
  | WebhookHandler (verifyToken hostNumber : String) (staleMsgTimeOut : Int)
      (wa : Whatsapp) (db : DB) (checkoutInfo : CheckoutInfo)
  | VerificationHandler (verifyToken : String)
  | PaymentReturnHandler (tpl : Template)
  | PaymentNotifyHandler (passphrase pfHost : String)
  | PaymentCancelHandler (tpl : Template)
  deriving DecidableEq, Repr

/-- The staleness threshold a handler was constructed with, if any. -/
def Handler.staleTimeOut? : Handler → Option Int
  | .WebhookHandler _ _ t _ _ _ => some t
  | _ => none

/-! ## The chi router, for patterns without parameters

`main` serves the router itself (`http.ListenAndServe(addr, r)`), with no
middleware: the request path is matched as it arrives, and a method is
served only by a handler registered for that method. -/

inductive Method where
  | CONNECT | DELETE | GET | HEAD | OPTIONS | PATCH | POST | PUT | TRACE
  deriving DecidableEq, Repr

structure Route where
  method : Method
  pattern : String
  handler : Handler
  deriving DecidableEq, Repr

/-- A router is the list of its registrations, oldest first. -/
abbrev Mux := List Route

def NewRouter : Mux := []

/-- Registering a handler for a method and pattern; a registration for the
same method and pattern replaces the earlier one. -/
def Mux.handle (r : Mux) (m : Method) (pattern : String) (h : Handler) : Mux :=
  r.filter (fun x => !(x.method = m && x.pattern = pattern)) ++ [⟨m, pattern, h⟩]

def Mux.Get (r : Mux) (pattern : String) (h : Handler) : Mux := r.handle .GET pattern h

def Mux.Post (r : Mux) (pattern : String) (h : Handler) : Mux := r.handle .POST pattern h

/-- Routing a request: a pattern without parameters matches the request path
that is equal to it, for the method it was registered with. -/
def Mux.dispatch (r : Mux) (m : Method) (path : String) : Option Handler :=
  (r.find? (fun x => x.method = m && x.pattern = path)).map Route.handler

/-! ## main -/

/-- What the program meets outside itself. -/
structure World where
  /-- The process environment. -/
  env : Env
  /-- The error of `sql.Open`, if it returns one. -/
  sqlOpenErr : Option String
  /-- The error of `template.ParseFiles` on a file, if it returns one. -/
  parseFilesErr : List String → Option String
  /-- The error of `db.Close`, if it returns one. -/
  dbCloseErr : Option String
  /-- The error `http.ListenAndServe` returns, `none` while it keeps serving. -/
  listenErr : Option String

inductive Event where
  | logPrintln (msg : String)
  | logFatal (msg : String)
  | NewWhatsapp (token phoneID : String)
  | sqlOpen (driverName dataSourceName : String)
  | ParseFiles (file : List String)
  | NewRouter
  | handle (m : Method) (pattern : String) (h : Handler)
  | dbClose
  | ListenAndServe (addr : String)
  deriving DecidableEq, Repr

inductive Exit where
  /-- The process ended in `log.Fatal`/`log.Fatalf` with this message. -/
  | fatal (msg : String)
  /-- The process ended in a panic (`template.Must`). -/
  | panic (msg : String)
  /-- The process is serving requests. -/
  | serving
  deriving DecidableEq, Repr

/-- One run of `main`: what it did, what it built, how it ended. -/
structure Run where
  trace : List Event
  checkoutInfo : Option CheckoutInfo := none
  router : Mux := []
  exit : Exit
  deriving Repr

/-- A panic in `main` after the database was opened: the deferred
`db.Close` runs, and is fatal when it fails. -/
def panicAfterOpen (w : World) (trace : List Event) (msg : String) : Run :=
  match w.dbCloseErr with
  | some err =>
    { trace := trace ++ [.dbClose, .logFatal ("Error closing database: " ++ err)]
      exit := .fatal ("Error closing database: " ++ err) }
  | none => { trace := trace ++ [.dbClose], exit := .panic msg }

/-- The function `main` (lines 68-154).  `log.Fatal` and `log.Fatalf` exit at
once, without running the deferred calls; a panic of `template.Must` runs
the deferred `db.Close`.  The context of line 86 is never used and its
`cancel` has no effect that is observed, so it leaves no event.
`http.ListenAndServe` returns only with an error, which is fatal; the
`log.Println` after it is never reached. -/
def main (w : World) : Run :=
  let t := [Event.logPrintln "Loading Env Vars..."]
  match loadEnvVars w.env with
  | .error msg => { trace := t ++ [.logFatal msg], exit := .fatal msg }
  | .ok envVars =>
  let wa : Whatsapp := ⟨envVars.WhatsAppToken, envVars.PhoneID⟩
  let t := t ++ [.NewWhatsapp envVars.WhatsAppToken envVars.PhoneID]
  let db : DB := ⟨"postgres", envVars.DBConn⟩
  let t := t ++ [.sqlOpen "postgres" envVars.DBConn]
  match w.sqlOpenErr with
  | some err =>
    { trace := t ++ [.logFatal ("Error opening database: " ++ err)]
      exit := .fatal ("Error opening database: " ++ err) }
  | none =>
  let t := t ++ [.logPrintln "Loading HTML templates..."]
  let pymntRtrnTplPath := templatePath envVars.Pwd pymntRtrnBase
  let pymntCnclTplPath := templatePath envVars.Pwd pymntCnclBase
  let t := t ++ [.ParseFiles pymntRtrnTplPath]
  match w.parseFilesErr pymntRtrnTplPath with
  | some err => panicAfterOpen w t err
  | none =>
  let pymntRtrnTpl : Template := ⟨pymntRtrnTplPath⟩
  let t := t ++ [.ParseFiles pymntCnclTplPath]
  match w.parseFilesErr pymntCnclTplPath with
  | some err => panicAfterOpen w t err
  | none =>
  let pymntCnclTpl : Template := ⟨pymntCnclTplPath⟩
  let r := NewRouter
  let t := t ++ [.NewRouter, .logPrintln "Chi router started..."]
  let checkoutInfo := mkCheckoutInfo envVars
  let h1 := Handler.WebhookHandler envVars.VerifyToken envVars.HostNumber staleMsgTimeOut
    wa db checkoutInfo
  let r := r.Post webhookURL h1
  let h2 := Handler.VerificationHandler envVars.VerifyToken
  let r := r.Get webhookURL h2
  let h3 := Handler.PaymentReturnHandler pymntRtrnTpl
  let r := r.Get returnBaseURL h3
  let h4 := Handler.PaymentNotifyHandler envVars.Passphrase envVars.PfHost
  let r := r.Get notifyBaseURL h4
  let h5 := Handler.PaymentCancelHandler pymntCnclTpl
  let r := r.Get cancelBaseURL h5
  let t := t ++ [.handle .POST webhookURL h1, .handle .GET webhookURL h2,
    .handle .GET returnBaseURL h3, .handle .GET notifyBaseURL h4,
    .handle .GET cancelBaseURL h5]
  if envVars.Port = "" then
    { trace := t ++ [.logFatal "Fatal Error Port not set"]
      checkoutInfo := some checkoutInfo
      router := r
      exit := .fatal "Fatal Error Port not set" }
  else
  let t := t ++ [.ListenAndServe (":" ++ envVars.Port)]
  match w.listenErr with
  | some err =>
    { trace := t ++ [.logFatal ("Fatal Error serving app: " ++ err)]
      checkoutInfo := some checkoutInfo
      router := r
      exit := .fatal ("Fatal Error serving app: " ++ err) }
  | none =>
    { trace := t
      checkoutInfo := some checkoutInfo
      router := r
      exit := .serving }

/-! ## Sample worlds -/

/-- An environment in the shape of the example `app.env` of the source,
whose `HOMEBASEURL` ends in a slash. -/
def exampleEnv : Env :=
  [("PWD", "/app"), ("PORT", "8080"), ("VERIFY_TOKEN", "vtoken"),
   ("WHATSAPP_TOKEN", "watoken"),
   ("DATABASE_URL", "postgresql://postgres:pw@localhost:5432/WhatsAppBot6?sslmode=disable"),
   ("HOST_NUMBER", "27000000000"), ("PHONE_ID", "100200300"),
   ("HOMEBASEURL", "https://yourhomedomain.ngrok-free.app/"),
   ("MERCHANTID", "10000100"), ("MERCHANTKEY", "46f0cd694581a"),
   ("PASSPHRASE", "jt7NOE43FZPn"), ("PFHOST", "https://sandbox.payfast.co.za/eng/process")]

/-- A world in which every external call succeeds and the server serves. -/
def exampleWorld : World where
  env := exampleEnv
  sqlOpenErr := none
  parseFilesErr := fun _ => none
  dbCloseErr := none
  listenErr := none


/-! ## Definitions used to state the properties -/

/-- The record the `EnvVars` literal builds when no call is fatal. -/
def envVarsOf (env : Env) : EnvVars where
  Pwd := Getenv env "PWD"
  Port := Getenv env "PORT"
  VerifyToken := Getenv env "VERIFY_TOKEN"
  WhatsAppToken := Getenv env "WHATSAPP_TOKEN"
  DBConn := Getenv env "DATABASE_URL"
  HostNumber := Getenv env "HOST_NUMBER"
  PhoneID := Getenv env "PHONE_ID"
  HomebaseURL := Getenv env "HOMEBASEURL"
  MerchantId := Getenv env "MERCHANTID"
  MerchantKey := Getenv env "MERCHANTKEY"
  Passphrase := Getenv env "PASSPHRASE"
  PfHost := Getenv env "PFHOST"

/-- The message of the `log.Fatalf` call in `getEnvVar`. -/
def fatalMsg (name : String) : String := name ++ " environment variable does not exist"

/-- The runs of `main` that reach the route registration: the environment
loads, the database opens and both templates parse. -/
def ReachesRoutes (w : World) (v : EnvVars) : Prop :=
  loadEnvVars w.env = .ok v ∧ w.sqlOpenErr = none ∧
    w.parseFilesErr (templatePath v.Pwd pymntRtrnBase) = none ∧
    w.parseFilesErr (templatePath v.Pwd pymntCnclBase) = none

/-- The route table after the five registrations of `main`, written out. -/
def routesOf (v : EnvVars) : Mux :=
  [⟨.POST, "/webhook", .WebhookHandler v.VerifyToken v.HostNumber 10
      ⟨v.WhatsAppToken, v.PhoneID⟩ ⟨"postgres", v.DBConn⟩ (mkCheckoutInfo v)⟩,
   ⟨.GET, "/webhook", .VerificationHandler v.VerifyToken⟩,
   ⟨.GET, "/payment_return", .PaymentReturnHandler ⟨templatePath v.Pwd pymntRtrnBase⟩⟩,
   ⟨.GET, "/payment_notify", .PaymentNotifyHandler v.Passphrase v.PfHost⟩,
   ⟨.GET, "/payment_canceled", .PaymentCancelHandler ⟨templatePath v.Pwd pymntCnclBase⟩⟩]

/-- The text of a URL after the first `://`. -/
def afterScheme : List Char → List Char
  | [] => []
  | c :: rest =>
    if (c :: rest).take 3 = [':', '/', '/'] then rest.drop 2 else afterScheme rest

/-- The path part of an absolute URL: the text after scheme and authority,
the authority ending at the first slash that follows `://`. -/
def urlPath (url : String) : String :=
  String.mk ((afterScheme url.data).dropWhile (fun c => c != '/'))

/-- Modelled from the spec: the staleness rule of the chat event handler,
whose body is not part of `main.go` (spec 4.2): stale iff
`now - eventTimestamp > thresholdSeconds`. -/
def IsStale (eventTimestamp now thresholdSeconds : Int) : Bool :=
  decide (now - eventTimestamp > thresholdSeconds)

/-! ## More sample worlds -/

/-- The example environment with `HOMEBASEURL` written without the final slash. -/
def plainEnv : Env :=
  ("HOMEBASEURL", "https://yourhomedomain.ngrok-free.app") :: exampleEnv

/-- A world with `plainEnv` in which every external call succeeds. -/
def plainWorld : World := { exampleWorld with env := plainEnv }

/-- The example environment cut after `DATABASE_URL`: `HOST_NUMBER` is the
first variable that is missing. -/
def shortEnv : Env := exampleEnv.take 5

def shortWorld : World := { exampleWorld with env := shortEnv }

/-- The example environment with an empty `MERCHANTKEY`. -/
def noKeyEnv : Env := ("MERCHANTKEY", "") :: exampleEnv

def noKeyWorld : World := { exampleWorld with env := noKeyEnv }

/-- The example environment with other values for the variables that are
not part of the merchant configuration. -/
def otherEnv : Env :=
  [("PWD", "/srv/bot"), ("PORT", "9090"), ("VERIFY_TOKEN", "another"),
   ("WHATSAPP_TOKEN", "t2"), ("DATABASE_URL", "postgresql://db/other"),
   ("HOST_NUMBER", "27111111111"), ("PHONE_ID", "42")] ++ exampleEnv

/-- A world with `otherEnv` in which the server stops with an error. -/
def otherWorld : World := { exampleWorld with env := otherEnv, listenErr := some "address in use" }

/-! ## Lemmas on the loader and on `main` -/

theorem getEnvVar_eq (env : Env) (n : String) :
    getEnvVar env n = if Getenv env n = "" then .error (fatalMsg n) else .ok (Getenv env n) :=
  rfl

theorem bind_getEnvVar {α : Type} (env : Env) (n : String) (f : String → Except String α) :
    (getEnvVar env n >>= f) =
      if Getenv env n = "" then .error (fatalMsg n) else f (Getenv env n) := by
  rw [getEnvVar_eq]
  split <;> rfl

theorem loadEnvVars_eq (env : Env) :
    loadEnvVars env =
      match envVarNames.find? (fun n => decide (Getenv env n = "")) with
      | some n => .error (fatalMsg n)
      | none => .ok (envVarsOf env) := by
  unfold loadEnvVars
  simp only [bind_getEnvVar, envVarNames, List.find?]
  by_cases h1 : Getenv env "PWD" = ""
  · simp only [h1, if_true, if_false, decide_True, decide_False]
  simp only [h1, if_false, decide_False]
  by_cases h2 : Getenv env "PORT" = ""
  · simp only [h1, h2, if_true, if_false, decide_True, decide_False]
  simp only [h2, if_false, decide_False]
  by_cases h3 : Getenv env "VERIFY_TOKEN" = ""
  · simp only [h1, h2, h3, if_true, if_false, decide_True, decide_False]
  simp only [h3, if_false, decide_False]
  by_cases h4 : Getenv env "WHATSAPP_TOKEN" = ""
  · simp only [h1, h2, h3, h4, if_true, if_false, decide_True, decide_False]
  simp only [h4, if_false, decide_False]
  by_cases h5 : Getenv env "DATABASE_URL" = ""
  · simp only [h1, h2, h3, h4, h5, if_true, if_false, decide_True, decide_False]
  simp only [h5, if_false, decide_False]
  by_cases h6 : Getenv env "HOST_NUMBER" = ""
  · simp only [h1, h2, h3, h4, h5, h6, if_true, if_false, decide_True, decide_False]
  simp only [h6, if_false, decide_False]
  by_cases h7 : Getenv env "PHONE_ID" = ""
  · simp only [h1, h2, h3, h4, h5, h6, h7, if_true, if_false, decide_True, decide_False]
  simp only [h7, if_false, decide_False]
  by_cases h8 : Getenv env "HOMEBASEURL" = ""
  · simp only [h1, h2, h3, h4, h5, h6, h7, h8, if_true, if_false, decide_True, decide_False]
  simp only [h8, if_false, decide_False]
  by_cases h9 : Getenv env "MERCHANTID" = ""
  · simp only [h1, h2, h3, h4, h5, h6, h7, h8, h9, if_true, if_false, decide_True, decide_False]
  simp only [h9, if_false, decide_False]
  by_cases h10 : Getenv env "MERCHANTKEY" = ""
  · simp only [h1, h2, h3, h4, h5, h6, h7, h8, h9, h10, if_true, if_false, decide_True, decide_False]
  simp only [h10, if_false, decide_False]
  by_cases h11 : Getenv env "PASSPHRASE" = ""
  · simp only [h1, h2, h3, h4, h5, h6, h7, h8, h9, h10, h11, if_true, if_false, decide_True, decide_False]
  simp only [h11, if_false, decide_False]
  by_cases h12 : Getenv env "PFHOST" = ""
  · simp only [h1, h2, h3, h4, h5, h6, h7, h8, h9, h10, h11, h12, if_true, if_false, decide_True, decide_False]
  simp only [h12, if_false, decide_False]
  rfl


theorem main_of_load_error (w : World) (msg : String) (h : loadEnvVars w.env = .error msg) :
    main w = { trace := [.logPrintln "Loading Env Vars...", .logFatal msg], exit := .fatal msg } := by
  unfold main
  simp only [h]
  rfl

theorem registrations_eq (v : EnvVars) :
    ((((NewRouter.Post webhookURL (.WebhookHandler v.VerifyToken v.HostNumber staleMsgTimeOut
      ⟨v.WhatsAppToken, v.PhoneID⟩ ⟨"postgres", v.DBConn⟩ (mkCheckoutInfo v))).Get webhookURL
      (.VerificationHandler v.VerifyToken)).Get returnBaseURL
      (.PaymentReturnHandler ⟨templatePath v.Pwd pymntRtrnBase⟩)).Get notifyBaseURL
      (.PaymentNotifyHandler v.Passphrase v.PfHost)).Get cancelBaseURL
      (.PaymentCancelHandler ⟨templatePath v.Pwd pymntCnclBase⟩) = routesOf v := by
  simp [NewRouter, Mux.Post, Mux.Get, Mux.handle, routesOf, webhookURL, returnBaseURL,
    notifyBaseURL, cancelBaseURL, pymntRtrnBase, pymntCnclBase, staleMsgTimeOut, List.filter]

theorem main_of_reaches (w : World) (v : EnvVars) (h : ReachesRoutes w v) :
    (main w).checkoutInfo = some (mkCheckoutInfo v) ∧ (main w).router = routesOf v := by
  obtain ⟨h1, h2, h3, h4⟩ := h
  unfold main
  simp only [h1, h2, h3, h4, registrations_eq]
  split
  · exact ⟨rfl, rfl⟩
  · split <;> exact ⟨rfl, rfl⟩

theorem main_of_not_reaches (w : World) (h : ¬ ∃ v, ReachesRoutes w v) :
    (main w).checkoutInfo = none ∧ (main w).router = [] := by
  unfold main
  cases h1 : loadEnvVars w.env with
  | error msg => exact ⟨rfl, rfl⟩
  | ok v =>
    cases h2 : w.sqlOpenErr with
    | some err => exact ⟨rfl, rfl⟩
    | none =>
      cases h3 : w.parseFilesErr (templatePath v.Pwd pymntRtrnBase) with
      | some err => simp only [h3, panicAfterOpen]; split <;> exact ⟨rfl, rfl⟩
      | none =>
        cases h4 : w.parseFilesErr (templatePath v.Pwd pymntCnclBase) with
        | some err => simp only [h3, h4, panicAfterOpen]; split <;> exact ⟨rfl, rfl⟩
        | none => exact absurd ⟨v, h1, h2, h3, h4⟩ h


theorem loadEnvVars_ok (env : Env) (v : EnvVars) (h : loadEnvVars env = .ok v) :
    v = envVarsOf env ∧ ∀ n ∈ envVarNames, Getenv env n ≠ "" := by
  rw [loadEnvVars_eq] at h
  cases hf : envVarNames.find? (fun n => decide (Getenv env n = "")) with
  | some n => simp [hf] at h
  | none =>
    simp only [hf] at h
    refine ⟨(Except.ok.inj h).symm, fun n hn => ?_⟩
    have := List.find?_eq_none.mp hf n hn
    simpa using this

theorem loadEnvVars_of_all (env : Env) (h : ∀ n ∈ envVarNames, Getenv env n ≠ "") :
    loadEnvVars env = .ok (envVarsOf env) := by
  rw [loadEnvVars_eq]
  have hf : envVarNames.find? (fun n => decide (Getenv env n = "")) = none := by
    rw [List.find?_eq_none]
    intro n hn
    simpa using h n hn
  simp only [hf]

theorem loadEnvVars_first_missing (env : Env) (pre post : List String) (n : String)
    (hsplit : envVarNames = pre ++ n :: post) (hpre : ∀ m ∈ pre, Getenv env m ≠ "")
    (hn : Getenv env n = "") : loadEnvVars env = .error (fatalMsg n) := by
  rw [loadEnvVars_eq, hsplit]
  have hf : pre.find? (fun n => decide (Getenv env n = "")) = none := by
    rw [List.find?_eq_none]
    intro m hm
    simpa using hpre m hm
  simp [List.find?_append, hf, List.find?_cons, hn]

theorem loadEnvVars_of_missing (env : Env) (n : String) (hmem : n ∈ envVarNames)
    (hn : Getenv env n = "") : ∃ m ∈ envVarNames, loadEnvVars env = .error (fatalMsg m) := by
  rw [loadEnvVars_eq]
  cases hf : envVarNames.find? (fun n => decide (Getenv env n = "")) with
  | some m => exact ⟨m, List.mem_of_find?_eq_some hf, rfl⟩
  | none =>
    have := List.find?_eq_none.mp hf n hmem
    simp [hn] at this

theorem checkout_some (w : World) (c : CheckoutInfo) (h : (main w).checkoutInfo = some c) :
    ReachesRoutes w (envVarsOf w.env) ∧ c = mkCheckoutInfo (envVarsOf w.env) ∧
      ∀ n ∈ envVarNames, Getenv w.env n ≠ "" := by
  by_cases hr : ∃ v, ReachesRoutes w v
  · obtain ⟨v, hv⟩ := hr
    obtain ⟨hv1, hv2⟩ := loadEnvVars_ok w.env v hv.1
    subst hv1
    have hc := (main_of_reaches w _ hv).1
    rw [hc] at h
    exact ⟨hv, (Option.some.inj h).symm, hv2⟩
  · rw [(main_of_not_reaches w hr).1] at h
    cases h

theorem main_trace_of_load_ok (w : World) (v : EnvVars) (h : loadEnvVars w.env = .ok v) :
    (main w).trace.take 3 = [.logPrintln "Loading Env Vars...",
      .NewWhatsapp v.WhatsAppToken v.PhoneID, .sqlOpen "postgres" v.DBConn] := by
  unfold main
  simp only [h]
  cases w.sqlOpenErr with
  | some err => rfl
  | none =>
    cases h3 : w.parseFilesErr (templatePath v.Pwd pymntRtrnBase) with
    | some err => simp only [panicAfterOpen]; split <;> rfl
    | none =>
      cases h4 : w.parseFilesErr (templatePath v.Pwd pymntCnclBase) with
      | some err => simp only [panicAfterOpen]; split <;> rfl
      | none =>
        simp only []
        split
        · rfl
        · split <;> rfl

theorem main_serves (w : World) (v : EnvVars) (h : ReachesRoutes w v) (hport : v.Port ≠ "") :
    Event.ListenAndServe (":" ++ v.Port) ∈ (main w).trace ∧
      (w.listenErr = none → (main w).exit = .serving) := by
  obtain ⟨h1, h2, h3, h4⟩ := h
  unfold main
  simp only [h1, h2, h3, h4, if_neg hport]
  cases w.listenErr with
  | some err => exact ⟨by simp, fun hl => by cases hl⟩
  | none => exact ⟨by simp, fun _ => rfl⟩

theorem append_ne_append (h a b : String) (hab : a ≠ b) : h ++ a ≠ h ++ b := by
  intro e
  apply hab
  have := congrArg String.data e
  simp only [String.data_append, List.append_cancel_left_eq] at this
  exact String.ext this

/-! ## The properties -/

/-- C1: whenever `main` builds the checkout info, its ReturnURL, CancelURL
and NotifyURL are the value of HOMEBASEURL followed by "/payment_return",
"/payment_canceled" and "/payment_notify", and the three URLs are pairwise
distinct. -/
theorem checkout_urls_from_homebase (w : World) (c : CheckoutInfo)
    (h : (main w).checkoutInfo = some c) :
    c.ReturnURL = Getenv w.env "HOMEBASEURL" ++ "/payment_return" ∧
    c.CancelURL = Getenv w.env "HOMEBASEURL" ++ "/payment_canceled" ∧
    c.NotifyURL = Getenv w.env "HOMEBASEURL" ++ "/payment_notify" ∧
    c.ReturnURL ≠ c.CancelURL ∧ c.ReturnURL ≠ c.NotifyURL ∧ c.CancelURL ≠ c.NotifyURL := by
  obtain ⟨_, hc, _⟩ := checkout_some w c h
  subst hc
  refine ⟨rfl, rfl, rfl, ?_, ?_, ?_⟩
  · exact append_ne_append _ _ _ (by decide)
  · exact append_ne_append _ _ _ (by decide)
  · exact append_ne_append _ _ _ (by decide)

/-- Witness of C1 on the world with the plain homebase URL. -/
theorem checkout_urls_from_homebase_witness :
    (main plainWorld).checkoutInfo = some (mkCheckoutInfo (envVarsOf plainEnv)) ∧
    (mkCheckoutInfo (envVarsOf plainEnv)).ReturnURL =
      "https://yourhomedomain.ngrok-free.app/payment_return" ∧
    (mkCheckoutInfo (envVarsOf plainEnv)).ReturnURL ≠
      (mkCheckoutInfo (envVarsOf plainEnv)).CancelURL :=
  ⟨rfl, (checkout_urls_from_homebase plainWorld _ rfl).1,
    (checkout_urls_from_homebase plainWorld _ rfl).2.2.2.1⟩

/-- C2: on the documented example, where HOMEBASEURL ends in a slash, the
path parts of ReturnURL, CancelURL and NotifyURL start with two slashes;
they are not the paths on which `main` registers the payment handlers, and
a GET request on them reaches no handler. -/
theorem payment_urls_miss_routes_on_documented_homebase :
    Getenv exampleWorld.env "HOMEBASEURL" = "https://yourhomedomain.ngrok-free.app/" ∧
    (main exampleWorld).checkoutInfo.map (fun c => (c.ReturnURL, c.CancelURL, c.NotifyURL)) =
      some ("https://yourhomedomain.ngrok-free.app//payment_return",
        "https://yourhomedomain.ngrok-free.app//payment_canceled",
        "https://yourhomedomain.ngrok-free.app//payment_notify") ∧
    (main exampleWorld).checkoutInfo.map
        (fun c => (urlPath c.ReturnURL, urlPath c.CancelURL, urlPath c.NotifyURL)) =
      some ("//payment_return", "//payment_canceled", "//payment_notify") ∧
    "//payment_return" ≠ returnBaseURL ∧ "//payment_canceled" ≠ cancelBaseURL ∧
    "//payment_notify" ≠ notifyBaseURL ∧
    (main exampleWorld).router.dispatch .GET "//payment_return" = none ∧
    (main exampleWorld).router.dispatch .GET "//payment_canceled" = none ∧
    (main exampleWorld).router.dispatch .GET "//payment_notify" = none ∧
    (main exampleWorld).router.dispatch .GET returnBaseURL =
      some (.PaymentReturnHandler ⟨["/app", "templates", "payment_return.html"]⟩) := by
  refine ⟨rfl, rfl, rfl, by decide, by decide, by decide, rfl, rfl, rfl, rfl⟩

/-- With HOMEBASEURL written without the final slash, the path part of each
payment URL is the registered path and a GET on it reaches its handler. -/
theorem payment_urls_reach_routes_on_plain_homebase :
    (main plainWorld).checkoutInfo.map
        (fun c => (urlPath c.ReturnURL, urlPath c.CancelURL, urlPath c.NotifyURL)) =
      some (returnBaseURL, cancelBaseURL, notifyBaseURL) ∧
    (main plainWorld).router.dispatch .GET "/payment_return" =
      some (.PaymentReturnHandler ⟨["/app", "templates", "payment_return.html"]⟩) ∧
    (main plainWorld).router.dispatch .GET "/payment_canceled" =
      some (.PaymentCancelHandler ⟨["/app", "templates", "payment_canceled.html"]⟩) ∧
    (main plainWorld).router.dispatch .GET "/payment_notify" =
      some (.PaymentNotifyHandler "jt7NOE43FZPn" "https://sandbox.payfast.co.za/eng/process") := by
  refine ⟨rfl, rfl, rfl, rfl⟩

/-- C3: the `EnvVars` literal of `main` loads if and only if each of the
twelve variables has a non-empty value, and `main` goes on to create the
channel client and open the database exactly in that case; when one of them
is empty, `main` ends in `log.Fatalf` right after its first log line, before
the channel client is created, the database is opened or a route is
registered; when all are set and the database and the templates load,
`main` builds the checkout info, registers its five routes and serves. -/
theorem config_loads_iff_all_set (w : World) :
    ((∃ v, loadEnvVars w.env = .ok v) ↔ ∀ n ∈ envVarNames, Getenv w.env n ≠ "") ∧
    envVarNames = ["PWD", "PORT", "VERIFY_TOKEN", "WHATSAPP_TOKEN", "DATABASE_URL",
      "HOST_NUMBER", "PHONE_ID", "HOMEBASEURL", "MERCHANTID", "MERCHANTKEY", "PASSPHRASE",
      "PFHOST"] ∧
    ((∃ n ∈ envVarNames, Getenv w.env n = "") →
      ∃ msg, (main w).exit = .fatal msg ∧
        (main w).trace = [.logPrintln "Loading Env Vars...", .logFatal msg] ∧
        (∀ token phoneID, Event.NewWhatsapp token phoneID ∉ (main w).trace) ∧
        (∀ driver source, Event.sqlOpen driver source ∉ (main w).trace) ∧
        (∀ m pattern h, Event.handle m pattern h ∉ (main w).trace) ∧
        (main w).router = [] ∧ (main w).checkoutInfo = none) ∧
    ((∀ n ∈ envVarNames, Getenv w.env n ≠ "") ↔
      Event.NewWhatsapp (Getenv w.env "WHATSAPP_TOKEN") (Getenv w.env "PHONE_ID") ∈
        (main w).trace) ∧
    ((∀ n ∈ envVarNames, Getenv w.env n ≠ "") ↔
      ∀ n ∈ envVarNames,
        (main w).trace ≠ [.logPrintln "Loading Env Vars...",
          .logFatal (n ++ " environment variable does not exist")]) ∧
    ((∀ n ∈ envVarNames, Getenv w.env n ≠ "") →
      (main w).trace.take 3 = [.logPrintln "Loading Env Vars...",
        .NewWhatsapp (Getenv w.env "WHATSAPP_TOKEN") (Getenv w.env "PHONE_ID"),
        .sqlOpen "postgres" (Getenv w.env "DATABASE_URL")] ∧
      (w.sqlOpenErr = none →
        w.parseFilesErr (templatePath (Getenv w.env "PWD") pymntRtrnBase) = none →
        w.parseFilesErr (templatePath (Getenv w.env "PWD") pymntCnclBase) = none →
        (main w).checkoutInfo = some (mkCheckoutInfo (envVarsOf w.env)) ∧
        (main w).router.length = 5 ∧
        Event.ListenAndServe (":" ++ Getenv w.env "PORT") ∈ (main w).trace ∧
        (w.listenErr = none → (main w).exit = .serving))) := by
  have hfail : (∃ n ∈ envVarNames, Getenv w.env n = "") →
      ∃ m ∈ envVarNames, main w =
        { trace := [.logPrintln "Loading Env Vars...", .logFatal (fatalMsg m)],
          exit := .fatal (fatalMsg m) } := by
    rintro ⟨n, hmem, hn⟩
    obtain ⟨m, hm1, hm⟩ := loadEnvVars_of_missing w.env n hmem hn
    exact ⟨m, hm1, main_of_load_error w _ hm⟩
  have hok : (∀ n ∈ envVarNames, Getenv w.env n ≠ "") →
      (main w).trace.take 3 = [.logPrintln "Loading Env Vars...",
        .NewWhatsapp (Getenv w.env "WHATSAPP_TOKEN") (Getenv w.env "PHONE_ID"),
        .sqlOpen "postgres" (Getenv w.env "DATABASE_URL")] := fun h =>
    main_trace_of_load_ok w _ (loadEnvVars_of_all w.env h)
  refine ⟨⟨?_, ?_⟩, rfl, ?_, ⟨?_, ?_⟩, ⟨?_, ?_⟩, ?_⟩
  · rintro ⟨v, hv⟩
    exact (loadEnvVars_ok w.env v hv).2
  · intro h
    exact ⟨_, loadEnvVars_of_all w.env h⟩
  · intro hex
    obtain ⟨m, _, hmain⟩ := hfail hex
    refine ⟨fatalMsg m, ?_, ?_, ?_, ?_, ?_, ?_, ?_⟩ <;> rw [hmain] <;> simp
  · intro h
    apply List.mem_of_mem_take (n := 3)
    rw [hok h]
    simp
  · intro hmem n hn hempty
    obtain ⟨m, _, hmain⟩ := hfail ⟨n, hn, hempty⟩
    rw [hmain] at hmem
    simp at hmem
  · intro h n hn htrace
    have h3 := hok h
    rw [htrace] at h3
    simp at h3
  · intro h n hn hempty
    obtain ⟨m, hm, hmain⟩ := hfail ⟨n, hn, hempty⟩
    exact h m hm (by rw [hmain]; rfl)
  · intro h
    refine ⟨hok h, fun h2 h3 h4 => ?_⟩
    have hr : ReachesRoutes w (envVarsOf w.env) := ⟨loadEnvVars_of_all w.env h, h2, h3, h4⟩
    obtain ⟨hc, hrt⟩ := main_of_reaches w _ hr
    exact ⟨hc, by rw [hrt]; rfl, (main_serves w _ hr (h "PORT" (by decide))).1,
      (main_serves w _ hr (h "PORT" (by decide))).2⟩

/-- Witness of C3: the environment that lacks HOST_NUMBER fails right after
the first log line, and the example environment, with all twelve variables
set, gets past loading and serves. -/
theorem config_loads_iff_all_set_witness :
    (∃ n ∈ envVarNames, Getenv shortWorld.env n = "") ∧
    (∃ msg, (main shortWorld).exit = .fatal msg ∧
      (main shortWorld).trace = [.logPrintln "Loading Env Vars...", .logFatal msg] ∧
      (∀ token phoneID, Event.NewWhatsapp token phoneID ∉ (main shortWorld).trace) ∧
      (∀ driver source, Event.sqlOpen driver source ∉ (main shortWorld).trace) ∧
      (∀ m pattern h, Event.handle m pattern h ∉ (main shortWorld).trace) ∧
      (main shortWorld).router = [] ∧ (main shortWorld).checkoutInfo = none) ∧
    (∀ n ∈ envVarNames, Getenv exampleWorld.env n ≠ "") ∧
    Event.NewWhatsapp "watoken" "100200300" ∈ (main exampleWorld).trace ∧
    (main exampleWorld).router.length = 5 ∧
    Event.ListenAndServe ":8080" ∈ (main exampleWorld).trace ∧
    (main exampleWorld).exit = .serving :=
  ⟨⟨"HOST_NUMBER", by decide, rfl⟩,
    (config_loads_iff_all_set shortWorld).2.2.1 ⟨"HOST_NUMBER", by decide, rfl⟩,
    by decide,
    (config_loads_iff_all_set exampleWorld).2.2.2.1.mp (by decide),
    (((config_loads_iff_all_set exampleWorld).2.2.2.2.2 (by decide)).2 rfl rfl rfl).2.1,
    (((config_loads_iff_all_set exampleWorld).2.2.2.2.2 (by decide)).2 rfl rfl rfl).2.2.1,
    (((config_loads_iff_all_set exampleWorld).2.2.2.2.2 (by decide)).2 rfl rfl rfl).2.2.2 rfl⟩

/-- C4: `getEnvVar` returns the value of the variable unchanged when it is
not empty, and otherwise ends the process with the message
"<name> environment variable does not exist"; so when `main` fails on its
configuration, the message names the first variable of the load order that
is missing. -/
theorem getEnvVar_names_first_missing (w : World) (name : String) :
    (Getenv w.env name ≠ "" → getEnvVar w.env name = .ok (Getenv w.env name)) ∧
    (Getenv w.env name = "" →
      getEnvVar w.env name = .error (name ++ " environment variable does not exist")) ∧
    envVarNames = ["PWD", "PORT", "VERIFY_TOKEN", "WHATSAPP_TOKEN", "DATABASE_URL",
      "HOST_NUMBER", "PHONE_ID", "HOMEBASEURL", "MERCHANTID", "MERCHANTKEY", "PASSPHRASE",
      "PFHOST"] ∧
    ∀ (pre post : List String) (n : String), envVarNames = pre ++ n :: post →
      (∀ m ∈ pre, Getenv w.env m ≠ "") → Getenv w.env n = "" →
      (main w).exit = .fatal (n ++ " environment variable does not exist") ∧
      (main w).trace = [.logPrintln "Loading Env Vars...",
        .logFatal (n ++ " environment variable does not exist")] := by
  refine ⟨?_, ?_, rfl, ?_⟩
  · intro h
    rw [getEnvVar_eq, if_neg h]
  · intro h
    rw [getEnvVar_eq, if_pos h]
    rfl
  · intro pre post n hsplit hpre hn
    have hm := loadEnvVars_first_missing w.env pre post n hsplit hpre hn
    rw [main_of_load_error w _ hm]
    exact ⟨rfl, rfl⟩

/-- Witness of C4: with the variables up to DATABASE_URL set and
HOST_NUMBER missing, the message names HOST_NUMBER. -/
theorem getEnvVar_names_first_missing_witness :
    getEnvVar shortWorld.env "PWD" = .ok "/app" ∧
    getEnvVar shortWorld.env "HOST_NUMBER" =
      .error "HOST_NUMBER environment variable does not exist" ∧
    (main shortWorld).exit = .fatal "HOST_NUMBER environment variable does not exist" :=
  ⟨(getEnvVar_names_first_missing shortWorld "PWD").1 (by decide),
    (getEnvVar_names_first_missing shortWorld "HOST_NUMBER").2.1 rfl,
    ((getEnvVar_names_first_missing shortWorld "PWD").2.2.2
      ["PWD", "PORT", "VERIFY_TOKEN", "WHATSAPP_TOKEN", "DATABASE_URL"]
      ["PHONE_ID", "HOMEBASEURL", "MERCHANTID", "MERCHANTKEY", "PASSPHRASE", "PFHOST"]
      "HOST_NUMBER" rfl (by decide) rfl).1⟩

/-- C5: when MERCHANTID, MERCHANTKEY or PASSPHRASE is empty, `main` ends in
`log.Fatalf` on a missing variable and builds no checkout info; whenever the
checkout info is built, its MerchantId, MerchantKey and Passphrase are not
empty. -/
theorem checkout_needs_merchant_fields (w : World) :
    ((Getenv w.env "MERCHANTID" = "" ∨ Getenv w.env "MERCHANTKEY" = "" ∨
        Getenv w.env "PASSPHRASE" = "") →
      (main w).checkoutInfo = none ∧
      ∃ n ∈ envVarNames, Getenv w.env n = "" ∧
        (main w).exit = .fatal (n ++ " environment variable does not exist")) ∧
    (∀ c, (main w).checkoutInfo = some c →
      c.MerchantId ≠ "" ∧ c.MerchantKey ≠ "" ∧ c.Passphrase ≠ "" ∧
      c.MerchantId = Getenv w.env "MERCHANTID" ∧ c.MerchantKey = Getenv w.env "MERCHANTKEY" ∧
      c.Passphrase = Getenv w.env "PASSPHRASE") := by
  constructor
  · intro h
    have hex : ∃ n ∈ envVarNames, Getenv w.env n = "" := by
      rcases h with h | h | h
      · exact ⟨"MERCHANTID", by decide, h⟩
      · exact ⟨"MERCHANTKEY", by decide, h⟩
      · exact ⟨"PASSPHRASE", by decide, h⟩
    obtain ⟨n, hmem, hn⟩ := hex
    cases hf : envVarNames.find? (fun n => decide (Getenv w.env n = "")) with
    | none =>
      have := List.find?_eq_none.mp hf n hmem
      simp [hn] at this
    | some m =>
      have hm : loadEnvVars w.env = .error (fatalMsg m) := by
        rw [loadEnvVars_eq]
        simp only [hf]
      have hempty : Getenv w.env m = "" := by
        simpa using List.find?_some hf
      rw [main_of_load_error w _ hm]
      exact ⟨rfl, m, List.mem_of_find?_eq_some hf, hempty, rfl⟩
  · intro c hc
    obtain ⟨_, hc, hall⟩ := checkout_some w c hc
    subst hc
    exact ⟨hall "MERCHANTID" (by decide), hall "MERCHANTKEY" (by decide),
      hall "PASSPHRASE" (by decide), rfl, rfl, rfl⟩

/-- Witness of C5 on the environment with an empty MERCHANTKEY and on the
example environment. -/
theorem checkout_needs_merchant_fields_witness :
    Getenv noKeyWorld.env "MERCHANTKEY" = "" ∧ (main noKeyWorld).checkoutInfo = none ∧
    (main exampleWorld).checkoutInfo = some (mkCheckoutInfo (envVarsOf exampleEnv)) ∧
    (mkCheckoutInfo (envVarsOf exampleEnv)).MerchantKey ≠ "" :=
  ⟨rfl, ((checkout_needs_merchant_fields noKeyWorld).1 (Or.inr (Or.inl rfl))).1, rfl,
    ((checkout_needs_merchant_fields exampleWorld).2 _ rfl).2.1⟩

/-- C6: two runs of `main` that both build the checkout info, in
environments that agree on HOMEBASEURL, MERCHANTID, MERCHANTKEY, PASSPHRASE
and PFHOST, build equal checkout infos, whatever the other variables hold;
the ItemNamePrefix of a checkout info `main` builds is "Order". -/
theorem checkout_depends_on_merchant_config (w₁ w₂ : World) (c₁ c₂ : CheckoutInfo)
    (h₁ : (main w₁).checkoutInfo = some c₁) (h₂ : (main w₂).checkoutInfo = some c₂)
    (hHome : Getenv w₁.env "HOMEBASEURL" = Getenv w₂.env "HOMEBASEURL")
    (hId : Getenv w₁.env "MERCHANTID" = Getenv w₂.env "MERCHANTID")
    (hKey : Getenv w₁.env "MERCHANTKEY" = Getenv w₂.env "MERCHANTKEY")
    (hPass : Getenv w₁.env "PASSPHRASE" = Getenv w₂.env "PASSPHRASE")
    (hHost : Getenv w₁.env "PFHOST" = Getenv w₂.env "PFHOST") :
    c₁ = c₂ ∧ c₁.ItemNamePrefix = "Order" ∧ c₂.ItemNamePrefix = "Order" := by
  obtain ⟨_, e₁, _⟩ := checkout_some w₁ c₁ h₁
  obtain ⟨_, e₂, _⟩ := checkout_some w₂ c₂ h₂
  subst e₁ e₂
  refine ⟨?_, rfl, rfl⟩
  simp only [mkCheckoutInfo, envVarsOf, hHome, hId, hKey, hPass, hHost]

/-- Witness of C6: the example world and a world that differs from it in
PWD, PORT, VERIFY_TOKEN, WHATSAPP_TOKEN, DATABASE_URL, HOST_NUMBER and
PHONE_ID build the same checkout info. -/
theorem checkout_depends_on_merchant_config_witness :
    Getenv exampleWorld.env "PORT" ≠ Getenv otherWorld.env "PORT" ∧
    (main exampleWorld).checkoutInfo = some (mkCheckoutInfo (envVarsOf exampleEnv)) ∧
    (main otherWorld).checkoutInfo = some (mkCheckoutInfo (envVarsOf otherEnv)) ∧
    mkCheckoutInfo (envVarsOf exampleEnv) = mkCheckoutInfo (envVarsOf otherEnv) :=
  ⟨by decide, rfl, rfl,
    (checkout_depends_on_merchant_config exampleWorld otherWorld _ _ rfl rfl rfl rfl rfl rfl
      rfl).1⟩

/-- C7: in the route table `main` builds, GET "/webhook" is bound to the
verification handler constructed from the value of VERIFY_TOKEN, POST
"/webhook" is bound to the chat event handler, and no other registration
has the pattern "/webhook": every other method finds no handler there. -/
theorem webhook_path_shared (w : World) (v : EnvVars) (h : ReachesRoutes w v) :
    webhookURL = "/webhook" ∧ v.VerifyToken = Getenv w.env "VERIFY_TOKEN" ∧
    (main w).router.dispatch .GET "/webhook" = some (.VerificationHandler v.VerifyToken) ∧
    (main w).router.dispatch .POST "/webhook" =
      some (.WebhookHandler v.VerifyToken v.HostNumber staleMsgTimeOut
        ⟨v.WhatsAppToken, v.PhoneID⟩ ⟨"postgres", v.DBConn⟩ (mkCheckoutInfo v)) ∧
    (∀ route ∈ (main w).router, route.pattern = "/webhook" →
      (route.method = .GET ∧ route.handler = .VerificationHandler v.VerifyToken) ∨
      (route.method = .POST ∧ route.handler =
        .WebhookHandler v.VerifyToken v.HostNumber staleMsgTimeOut
          ⟨v.WhatsAppToken, v.PhoneID⟩ ⟨"postgres", v.DBConn⟩ (mkCheckoutInfo v))) ∧
    (∀ m, m ≠ .GET → m ≠ .POST → (main w).router.dispatch m "/webhook" = none) := by
  have hv := (loadEnvVars_ok w.env v h.1).1
  have hr := (main_of_reaches w v h).2
  refine ⟨rfl, by rw [hv]; rfl, ?_, ?_, ?_, ?_⟩
  · rw [hr]; rfl
  · rw [hr]; rfl
  · rw [hr]
    intro route hmem hpat
    simp only [routesOf, List.mem_cons, List.mem_singleton, List.not_mem_nil, or_false] at hmem
    rcases hmem with e | e | e | e | e <;> subst e
    · exact Or.inr ⟨rfl, rfl⟩
    · exact Or.inl ⟨rfl, rfl⟩
    · exact absurd hpat (show ("/payment_return" : String) ≠ "/webhook" by decide)
    · exact absurd hpat (show ("/payment_notify" : String) ≠ "/webhook" by decide)
    · exact absurd hpat (show ("/payment_canceled" : String) ≠ "/webhook" by decide)
  · rw [hr]
    intro m h1 h2
    cases m <;> first | rfl | exact absurd rfl h1 | exact absurd rfl h2

/-- Witness of C7 on the example world. -/
theorem webhook_path_shared_witness :
    ReachesRoutes exampleWorld (envVarsOf exampleEnv) ∧
    (main exampleWorld).router.dispatch .GET "/webhook" = some (.VerificationHandler "vtoken") ∧
    (main exampleWorld).router.dispatch .PUT "/webhook" = none :=
  ⟨⟨rfl, rfl, rfl, rfl⟩,
    (webhook_path_shared exampleWorld (envVarsOf exampleEnv) ⟨rfl, rfl, rfl, rfl⟩).2.2.1,
    (webhook_path_shared exampleWorld (envVarsOf exampleEnv) ⟨rfl, rfl, rfl, rfl⟩).2.2.2.2.2
      .PUT (by decide) (by decide)⟩

/-- C8: the staleness threshold `main` passes to the chat event handler is
the constant 10 in every environment; under the rule stale iff
now - eventTimestamp > threshold, an event 15 seconds before now is stale,
an event exactly 10 seconds before now is not, and an event after now is
not. -/
theorem stale_threshold_is_ten (w : World) (v : EnvVars) (h : ReachesRoutes w v) :
    ((main w).router.dispatch .POST webhookURL).bind Handler.staleTimeOut? = some 10 ∧
    (∀ route ∈ (main w).router, ∀ t, route.handler.staleTimeOut? = some t → t = 10) ∧
    staleMsgTimeOut = 10 ∧
    ∀ now : Int, IsStale (now - 15) now staleMsgTimeOut = true ∧
      IsStale (now - 10) now staleMsgTimeOut = false ∧
      ∀ eventTimestamp, now < eventTimestamp →
        IsStale eventTimestamp now staleMsgTimeOut = false := by
  have hr := (main_of_reaches w v h).2
  refine ⟨by rw [hr]; rfl, ?_, rfl, ?_⟩
  · rw [hr]
    intro route hmem t ht
    simp only [routesOf, List.mem_cons, List.mem_singleton, List.not_mem_nil, or_false] at hmem
    rcases hmem with e | e | e | e | e <;> subst e <;>
      simp only [Handler.staleTimeOut?, Option.some.injEq, reduceCtorEq] at ht
    exact ht.symm
  · intro now
    refine ⟨?_, ?_, ?_⟩
    · simp only [IsStale, staleMsgTimeOut, decide_eq_true_eq]; omega
    · simp only [IsStale, staleMsgTimeOut, decide_eq_false_iff_not]; omega
    · intro ts hts
      simp only [IsStale, staleMsgTimeOut, decide_eq_false_iff_not]; omega

/-- Witness of C8 on the example world, with now = 1000. -/
theorem stale_threshold_is_ten_witness :
    ReachesRoutes exampleWorld (envVarsOf exampleEnv) ∧
    ((main exampleWorld).router.dispatch .POST webhookURL).bind Handler.staleTimeOut? =
      some 10 ∧
    IsStale 985 1000 10 = true ∧ IsStale 990 1000 10 = false ∧ IsStale 1001 1000 10 = false :=
  ⟨⟨rfl, rfl, rfl, rfl⟩,
    (stale_threshold_is_ten exampleWorld (envVarsOf exampleEnv) ⟨rfl, rfl, rfl, rfl⟩).1,
    ((stale_threshold_is_ten exampleWorld (envVarsOf exampleEnv) ⟨rfl, rfl, rfl, rfl⟩).2.2.2
      1000).1,
    ((stale_threshold_is_ten exampleWorld (envVarsOf exampleEnv) ⟨rfl, rfl, rfl, rfl⟩).2.2.2
      1000).2.1,
    ((stale_threshold_is_ten exampleWorld (envVarsOf exampleEnv) ⟨rfl, rfl, rfl, rfl⟩).2.2.2
      1000).2.2 1001 (by decide)⟩

/-- C10: in the route table `main` builds, a request on "/payment_notify"
reaches the payment notification handler if and only if its method is GET,
and a POST on "/payment_notify" reaches no handler; the handler is
constructed from the passphrase and gateway host that are placed in the
checkout info. -/
theorem notify_route_is_get_only (w : World) (v : EnvVars) (h : ReachesRoutes w v) :
    notifyBaseURL = "/payment_notify" ∧
    (∀ m, (main w).router.dispatch m "/payment_notify" =
      if m = .GET then some (.PaymentNotifyHandler v.Passphrase v.PfHost) else none) ∧
    (main w).router.dispatch .POST "/payment_notify" = none ∧
    (∀ route ∈ (main w).router, ∀ p g, route.handler = .PaymentNotifyHandler p g →
      route.method = .GET ∧ route.pattern = "/payment_notify") ∧
    ∃ c, (main w).checkoutInfo = some c ∧
      (main w).router.dispatch .GET "/payment_notify" =
        some (.PaymentNotifyHandler c.Passphrase c.HostURL) ∧
      c.Passphrase = Getenv w.env "PASSPHRASE" ∧ c.HostURL = Getenv w.env "PFHOST" := by
  have hv := (loadEnvVars_ok w.env v h.1).1
  have hr := (main_of_reaches w v h).2
  have hc := (main_of_reaches w v h).1
  refine ⟨rfl, ?_, by rw [hr]; rfl, ?_, mkCheckoutInfo v, hc, by rw [hr]; rfl,
    by rw [hv]; rfl, by rw [hv]; rfl⟩
  · rw [hr]
    intro m
    cases m <;> rfl
  · rw [hr]
    intro route hmem p g hh
    simp only [routesOf, List.mem_cons, List.mem_singleton, List.not_mem_nil, or_false] at hmem
    rcases hmem with e | e | e | e | e <;> subst e <;>
      simp only [reduceCtorEq] at hh
    exact ⟨rfl, rfl⟩

/-- Witness of C10 on the example world. -/
theorem notify_route_is_get_only_witness :
    ReachesRoutes exampleWorld (envVarsOf exampleEnv) ∧
    (main exampleWorld).router.dispatch .GET "/payment_notify" =
      some (.PaymentNotifyHandler "jt7NOE43FZPn" "https://sandbox.payfast.co.za/eng/process") ∧
    (main exampleWorld).router.dispatch .POST "/payment_notify" = none :=
  ⟨⟨rfl, rfl, rfl, rfl⟩,
    (notify_route_is_get_only exampleWorld (envVarsOf exampleEnv) ⟨rfl, rfl, rfl, rfl⟩).2.1
      .GET,
    (notify_route_is_get_only exampleWorld (envVarsOf exampleEnv) ⟨rfl, rfl, rfl, rfl⟩).2.2.1⟩

end MenuBot
